import Mathlib

/-!
Verification of the `DatabaseManager` IndexedDB adapter
(src/DatabaseManager.js) against its natural-language specification.

The JavaScript class is shallowly embedded: the host engine's object
store is an association list of records sorted by key (IndexedDB's
natural ascending key order), a database is a named list of object
stores, and each adapter operation is a pure function from the adapter
configuration and a database value to an outcome carrying the engine
calls it issued, its result, and the successor database.
-/

set_option autoImplicit false

/- The data operations take the adapter configuration `m` but never use
it: that is the hard-coded `'s'` of the source, kept faithfully. -/
set_option linter.unusedVariables false

namespace IndexedDBManager

/-- JavaScript values storable through the adapter.  `vRecObj k v` is
the two-field object produced by `set`/`setAll` (the literal written as
`put({ k: key, v: value })` in the source); it is the only object shape
this program ever constructs. The JS value `undefined` is not a
`JSValue`: argument positions that may be `undefined` use
`Option JSValue`, with `none` standing for `undefined`. -/
inductive JSValue where
  | vNull
  | vBool (b : Bool)
  | vNum (n : Int)
  | vStr (s : String)
  | vRecObj (k : String) (v : JSValue)
deriving DecidableEq, Repr

/-- JavaScript truthiness of a `JSValue` (`null`, `false`, `0` and the
empty string are falsy; objects are always truthy). -/
def JSValue.truthy : JSValue → Bool
  | .vNull => false
  | .vBool b => b
  | .vNum n => n != 0
  | .vStr s => s != ""
  | .vRecObj _ _ => true

/-- A stored record, the object `{ k, v }` created by `set`/`setAll`
(spec section 3: fields `k` for the key and `v` for the value). -/
structure Record where
  k : String
  v : JSValue
deriving DecidableEq, Repr

/-- The record as the JS object the engine hands back from `getAll`. -/
def Record.toJS (r : Record) : JSValue := .vRecObj r.k r.v

/-- Engine-level `get` on an object store: the first record whose key
field equals the requested key (keys are unique, the store is an
association list). -/
def storeGet (st : List Record) (key : String) : Option Record :=
  st.find? (fun r => r.k == key)

/-- Engine-level `put` (upsert): replace the record with the same key,
or insert at the position given by ascending key order (IndexedDB keeps
records in ascending key order). -/
def storePut : List Record → Record → List Record
  | [], r => [r]
  | x :: xs, r =>
    if r.k < x.k then r :: x :: xs
    else if r.k == x.k then r :: xs
    else x :: storePut xs r

/-- Engine-level `delete`: remove the record with that key if present;
an absent key leaves the store unchanged and is not an error. -/
def storeDelete (st : List Record) (key : String) : List Record :=
  st.filter (fun r => r.k != key)

/-- A database handle: the named object stores it contains.  `init`'s
upgrade path creates exactly one store. -/
structure IDBDatabase where
  objectStores : List (String × List Record)
deriving DecidableEq, Repr

/-- Look up an object store by name (`transaction(name)` throws a
NotFoundError when this is `none`). -/
def IDBDatabase.findStore (d : IDBDatabase) (name : String) : Option (List Record) :=
  (d.objectStores.find? (fun p => p.1 == name)).map (fun p => p.2)

/-- Replace the contents of the named object store. -/
def IDBDatabase.setStore (d : IDBDatabase) (name : String) (st : List Record) : IDBDatabase :=
  ⟨d.objectStores.map (fun p => if p.1 == name then (p.1, st) else p)⟩

/-- Transaction modes of the host engine. -/
inductive TxnMode where
  | readonly
  | readwrite
deriving DecidableEq, Repr

/-- One engine-level call issued by an adapter operation, in source
order.  `transaction name mode` records which collection name the
operation's transaction was opened against. -/
inductive EngineCall where
  | transaction (store : String) (mode : TxnMode)
  | reqGet (key : String)
  | reqPut (r : Record)
  | reqDelete (key : String)
  | reqGetAll
  | reqGetAllKeys
  | reqClear
  | commit
deriving DecidableEq, Repr

/-- Errors surfaced by the adapter (the spec's taxonomy, plus the
engine's NotFoundError raised when a transaction names a collection the
database does not contain, and the TypeError raised by calling a method
of `undefined`). -/
inductive DBError where
  | invalidKey
  | invalidValue
  | storeNotFound (name : String)
  | notSupported
  | typeError
deriving DecidableEq, Repr

/-- Outcome of one adapter operation: the engine calls it issued, the
value its promise settles with, and the database state afterwards. -/
structure OpOutcome (α : Type) where
  calls : List EngineCall
  result : Except DBError α
  db : IDBDatabase
deriving Repr

instance {ε α : Type} [DecidableEq ε] [DecidableEq α] : DecidableEq (Except ε α) := fun a b =>
  match a, b with
  | .ok x, .ok y => if h : x = y then .isTrue (by rw [h]) else .isFalse (by simp [h])
  | .error x, .error y => if h : x = y then .isTrue (by rw [h]) else .isFalse (by simp [h])
  | .ok _, .error _ => .isFalse (by simp)
  | .error _, .ok _ => .isFalse (by simp)

instance {α : Type} [DecidableEq α] : DecidableEq (OpOutcome α) := fun a b =>
  if h : a.calls = b.calls ∧ a.result = b.result ∧ a.db = b.db then
    .isTrue (by cases a; cases b; simp_all)
  else
    .isFalse (by cases a; cases b; simp_all)

/-- The adapter's instance state, mirroring the constructor
(src/DatabaseManager.js lines 1-9): `db` and `ready` start as
`null`/`false`, the four configuration fields are fixed. -/
structure DatabaseManager where
  db : Option IDBDatabase
  ready : Bool
  databaseName : String
  version : Nat
  storeName : String
  keyPath : String
deriving DecidableEq, Repr

/-- `new DatabaseManager(databaseName, version, storeName, keyPath)`. -/
def DatabaseManager.mkNew (databaseName : String) (version : Nat)
    (storeName : String) (keyPath : String) : DatabaseManager :=
  ⟨none, false, databaseName, version, storeName, keyPath⟩

/-- The constructor with its default arguments `('ldb', 1, 's', 'k')`. -/
def defaultManager : DatabaseManager :=
  DatabaseManager.mkNew "ldb" 1 "s" "k"

/-- The readiness gate `_waitForDB` (lines 58-71) polls `this.db` (not
`this.ready`) every 50ms and lets the operation proceed exactly when
`this.db` is non-null. -/
def DatabaseManager.dbGateOpen (m : DatabaseManager) : Bool :=
  m.db.isSome

/-- Line 85 of the source: `(event.target.result && event.target.result['v']) || null`.
`r = none` models an absent record (`event.target.result === undefined`). -/
def getResultTransform (r : Option Record) : JSValue :=
  match r with
  | none => .vNull
  | some rec => if rec.v.truthy then rec.v else .vNull

/-- `get(key)` (lines 78-93): opens a read-only transaction against the
literal store name `'s'`, issues a `get` request, and resolves with the
transformed result. -/
def DatabaseManager.get (m : DatabaseManager) (d : IDBDatabase) (key : String) :
    OpOutcome JSValue :=
  match d.findStore "s" with
  | none => ⟨[.transaction "s" .readonly], .error (.storeNotFound "s"), d⟩
  | some st =>
    ⟨[.transaction "s" .readonly, .reqGet key],
     .ok (getResultTransform (storeGet st key)), d⟩

/-- `typeof key === 'string'` for a JS argument (`none` = `undefined`). -/
def jsTypeofString : Option JSValue → Bool
  | some (.vStr _) => true
  | _ => false

/-- JavaScript's `String.prototype.trim()`: strip whitespace from both
ends, modelled on the string's character list. -/
def jsTrim (s : String) : String :=
  ⟨((s.data.dropWhile Char.isWhitespace).reverse.dropWhile Char.isWhitespace).reverse⟩

/-- `set(key, value)` (lines 101-121): validates `key`
(`typeof key !== 'string' || key.trim() === ''` throws `Invalid key`)
and `value` (`undefined` throws `Value cannot be undefined`) before any
engine call; then opens a read-write transaction against the literal
store name `'s'`, puts `{ k: key, v: value }`, commits, and resolves on
the transaction's `oncomplete`. -/
def DatabaseManager.set (m : DatabaseManager) (d : IDBDatabase)
    (key value : Option JSValue) : OpOutcome Unit :=
  match key with
  | some (.vStr s) =>
    if jsTrim s == "" then ⟨[], .error .invalidKey, d⟩
    else
      match value with
      | none => ⟨[], .error .invalidValue, d⟩
      | some v =>
        match d.findStore "s" with
        | none => ⟨[.transaction "s" .readwrite], .error (.storeNotFound "s"), d⟩
        | some st =>
          ⟨[.transaction "s" .readwrite, .reqPut ⟨s, v⟩, .commit],
           .ok (), d.setStore "s" (storePut st ⟨s, v⟩)⟩
  | _ => ⟨[], .error .invalidKey, d⟩

/-- `delete(key)` (lines 128-139): opens a read-write transaction
against the literal store name `'s'`, issues a `delete` request, and
resolves on the request's `onsuccess` (an absent key still succeeds). -/
def DatabaseManager.delete (m : DatabaseManager) (d : IDBDatabase) (key : String) :
    OpOutcome Unit :=
  match d.findStore "s" with
  | none => ⟨[.transaction "s" .readwrite], .error (.storeNotFound "s"), d⟩
  | some st =>
    ⟨[.transaction "s" .readwrite, .reqDelete key],
     .ok (), d.setStore "s" (storeDelete st key)⟩

/-- Line 150 / line 167 of the source: `event.target.result || []`
(a present array, even empty, is truthy and is kept; an absent result
becomes the empty array). -/
def orEmptyList {α : Type} : Option (List α) → List α
  | none => []
  | some l => l

/-- `list()` (lines 145-156): opens a read-only transaction against the
literal store name `'s'`, issues `getAllKeys`, and resolves with the
keys (ascending key order) or `[]`. -/
def DatabaseManager.list (m : DatabaseManager) (d : IDBDatabase) :
    OpOutcome (List String) :=
  match d.findStore "s" with
  | none => ⟨[.transaction "s" .readonly], .error (.storeNotFound "s"), d⟩
  | some st =>
    ⟨[.transaction "s" .readonly, .reqGetAllKeys],
     .ok (orEmptyList (some (st.map (fun r => r.k)))), d⟩

/-- `getAll()` (lines 162-173): opens a read-only transaction against
the literal store name `'s'`, issues `getAll`, and resolves with the
engine's result — the stored record objects themselves, untouched — or
`[]`. -/
def DatabaseManager.getAll (m : DatabaseManager) (d : IDBDatabase) :
    OpOutcome (List JSValue) :=
  match d.findStore "s" with
  | none => ⟨[.transaction "s" .readonly], .error (.storeNotFound "s"), d⟩
  | some st =>
    ⟨[.transaction "s" .readonly, .reqGetAll],
     .ok (orEmptyList (some (st.map Record.toJS))), d⟩

/-- `clear()` (lines 179-190): opens a read-write transaction against
the literal store name `'s'`, issues `clear`, resolves on success. -/
def DatabaseManager.clear (m : DatabaseManager) (d : IDBDatabase) :
    OpOutcome Unit :=
  match d.findStore "s" with
  | none => ⟨[.transaction "s" .readwrite], .error (.storeNotFound "s"), d⟩
  | some _ =>
    ⟨[.transaction "s" .readwrite, .reqClear], .ok (), d.setStore "s" []⟩

/-- `setAll(entries)` (lines 198-214): opens one read-write transaction
against the literal store name `'s'`, puts every `{ k: key, v: value }`
with no per-entry validation, commits, resolves on `oncomplete`. -/
def DatabaseManager.setAll (m : DatabaseManager) (d : IDBDatabase)
    (entries : List (String × JSValue)) : OpOutcome Unit :=
  match d.findStore "s" with
  | none => ⟨[.transaction "s" .readwrite], .error (.storeNotFound "s"), d⟩
  | some st =>
    ⟨[.transaction "s" .readwrite]
       ++ entries.map (fun e => .reqPut ⟨e.1, e.2⟩) ++ [.commit],
     .ok (),
     d.setStore "s" (entries.foldl (fun acc e => storePut acc ⟨e.1, e.2⟩) st)⟩

/-! ### init: environment probe and connection/readiness handlers -/

/-- The host environment as `init` (lines 15-25) probes it: whether a
`window` global exists, and which of the four vendor-named IndexedDB
properties it exposes as a truthy engine handle. -/
structure HostEnv where
  hasWindow : Bool
  indexedDB : Bool
  mozIndexedDB : Bool
  webkitIndexedDB : Bool
  msIndexedDB : Bool
deriving DecidableEq, Repr

/-- How `init`'s synchronous prelude settles, as a function of the
environment. -/
inductive InitProbe where
  | rejectedNotSupported
  | rejectedTypeError
  | proceedsToOpen
deriving DecidableEq, Repr

/-- Lines 16-25 of the source:
`win = typeof window !== 'undefined' ? window : {}`;
`indexedDB = win.indexedDB || win.mozIndexedDB || win.webkitIndexedDB || win.msIndexedDB`;
`if (typeof window !== 'undefined' && !indexedDB) reject('IndexedDB not supported')`;
otherwise `indexedDB.open(...)` — which, when `indexedDB` is
`undefined` (no `window` at all, so `win = {}`), throws a TypeError
inside the promise executor and rejects the promise with it. -/
def initProbe (e : HostEnv) : InitProbe :=
  let idbPresent := e.hasWindow
    && (e.indexedDB || e.mozIndexedDB || e.webkitIndexedDB || e.msIndexedDB)
  if e.hasWindow && !idbPresent then .rejectedNotSupported
  else if !idbPresent then .rejectedTypeError
  else .proceedsToOpen

/-- The open request's `onsuccess` handler (lines 26-30):
`this.db = evt.target.result; this.ready = true; resolve()`. -/
def DatabaseManager.onOpenSuccess (m : DatabaseManager) (result : IDBDatabase) :
    DatabaseManager :=
  { m with db := some result, ready := true }

/-- The database the `onupgradeneeded` handler builds (lines 36-41):
one object store named `this.storeName` (keyPath `this.keyPath`),
initially empty. -/
def DatabaseManager.upgradeCreatedDb (m : DatabaseManager) : IDBDatabase :=
  ⟨[(m.storeName, [])]⟩

/-- The adapter state once `init` resolves through the upgrade path:
the `onupgradeneeded` body first sets `this.db = null` (line 37) and
creates the store; the creation transaction's `oncomplete` (lines
42-45) then sets `this.db` and resolves — without touching
`this.ready`. -/
def DatabaseManager.afterUpgradeResolve (m : DatabaseManager) : DatabaseManager :=
  let m1 := { m with db := none }
  { m1 with db := some m.upgradeCreatedDb }

/-! ### Lifecycle of `set`'s read-write transaction (for the resolution
timing of the promise) -/

/-- Successive phases of `set`'s transaction: created, `put` request
issued, `put` request acknowledged (`request.onsuccess` would fire
here), transaction committed as a whole (`txn.oncomplete` fires here).
The engine makes the write visible to subsequent transactions exactly
from the committed phase. -/
inductive TxnPhase where
  | created
  | putIssued
  | putAcked
  | committed
deriving DecidableEq, Repr

/-- The written record is durable/visible to later transactions only
once the transaction as a whole has committed. -/
def writeVisible (p : TxnPhase) : Bool :=
  p == .committed

/-- Which callbacks `set` attaches its `resolve` to.  From the source:
line 112 is `txn.oncomplete = () => resolve()`, and no handler is put
on the individual `put` request. -/
structure SetPromiseHandlers where
  resolveOnTxnComplete : Bool
  resolveOnPutSuccess : Bool
deriving DecidableEq, Repr

/-- The handlers `set` actually installs (lines 110-120). -/
def setHandlers : SetPromiseHandlers :=
  ⟨true, false⟩

/-- The earliest phase at which the promise resolves, given where the
resolve callback is attached: a handler on the `put` request fires at
`putAcked`, a handler on the transaction fires at `committed`. -/
def resolutionPhase (h : SetPromiseHandlers) : Option TxnPhase :=
  if h.resolveOnPutSuccess then some .putAcked
  else if h.resolveOnTxnComplete then some .committed
  else none

/-! ### Spec-side definition for the `getAll` refinement claim -/

/-- The sequence the spec says `getAll` returns: the records' `value`
fields only, in store order. (Stated from the spec's words, for
comparison with `DatabaseManager.getAll` above, which is translated
from the source.) -/
def getAllSpecValues (st : List Record) : List JSValue :=
  st.map (fun r => r.v)

/-- Extract the `v` field of a stored record object, if the value is
one. -/
def JSValue.recV : JSValue → Option JSValue
  | .vRecObj _ v => some v
  | _ => none

/-! ### Helper lemmas about the engine-level store operations -/

theorem storeGet_storePut (st : List Record) (r : Record) :
    storeGet (storePut st r) r.k = some r := by
  induction st with
  | nil => simp [storePut, storeGet, List.find?]
  | cons x xs ih =>
    by_cases h1 : r.k < x.k
    · simp [storePut, h1, storeGet, List.find?]
    · by_cases h2 : r.k = x.k
      · simp [storePut, h1, h2, storeGet, List.find?]
      · have hx : (x.k == r.k) = false := by
          simp [Ne.symm h2]
        simp only [storePut, if_neg h1, beq_iff_eq, if_neg h2]
        simpa [storeGet, List.find?, hx] using ih

theorem findStore_setStore (l : List (String × List Record)) (name : String)
    (st st' : List Record)
    (h : (IDBDatabase.mk l).findStore name = some st) :
    ((IDBDatabase.mk l).setStore name st').findStore name = some st' := by
  induction l with
  | nil => simp [IDBDatabase.findStore, List.find?] at h
  | cons p ps ih =>
    by_cases hp : p.1 = name
    · simp [IDBDatabase.findStore, IDBDatabase.setStore, List.find?, hp]
    · have hp' : (p.1 == name) = false := by simp [hp]
      have h2 : (IDBDatabase.mk ps).findStore name = some st := by
        simpa [IDBDatabase.findStore, List.find?, hp', hp] using h
      simpa [IDBDatabase.findStore, IDBDatabase.setStore, List.find?, hp', hp]
        using ih h2

theorem storeDelete_idem (st : List Record) (k : String) :
    storeDelete (storeDelete st k) k = storeDelete st k := by
  induction st with
  | nil => rfl
  | cons x xs _ih =>
    by_cases h : x.k = k
    · simp [storeDelete, h]
    · have h' : (x.k != k) = true := by simp [h]
      simp [storeDelete, h']

/-! ### Concrete inputs shared by the claim theorems -/

/-- A database holding exactly the one object store named `'s'` (what
`init` creates under the default configuration). -/
def dbS (st : List Record) : IDBDatabase :=
  ⟨[("s", st)]⟩

/-- The adapter of the README's usage example:
`new DatabaseManager('myDatabase', 1, 'myStore', 'id')`. -/
def readmeManager : DatabaseManager :=
  DatabaseManager.mkNew "myDatabase" 1 "myStore" "id"

/-- The database `init` creates for `readmeManager`: only the store
named `'myStore'`. -/
def readmeDb : IDBDatabase :=
  readmeManager.upgradeCreatedDb

/-- A host with no browser global at all (e.g. bare Node.js). -/
def noWindowEnv : HostEnv :=
  ⟨false, false, false, false, false⟩

/-! ### Further helper lemmas -/

theorem setStoreList_twice (l : List (String × List Record)) (name : String)
    (st1 st2 : List Record) :
    (l.map (fun p => if p.1 == name then (p.1, st1) else p)).map
        (fun p => if p.1 == name then (p.1, st2) else p)
      = l.map (fun p => if p.1 == name then (p.1, st2) else p) := by
  induction l with
  | nil => rfl
  | cons p ps ih =>
    simp only [List.map_cons]
    rw [ih]
    by_cases hp : p.1 = name <;> simp [hp]

theorem setStore_setStore (l : List (String × List Record)) (name : String)
    (st1 st2 : List Record) :
    ((IDBDatabase.mk l).setStore name st1).setStore name st2
      = (IDBDatabase.mk l).setStore name st2 := by
  simp only [IDBDatabase.setStore]
  exact congrArg IDBDatabase.mk (setStoreList_twice l name st1 st2)

/-! ### Claim C1 -/

/-- Claim C1, counterexample: storing the value `0` under key `'k'`
succeeds, but `get('k')` then returns `null`, not `0` — line 85's
`(result && result['v']) || null` collapses every falsy stored value
(`0`, `false`, `''`) to `null`, so the claimed round-trip fails for
them. -/
theorem set_get_falsy_counterexample :
    (defaultManager.set (dbS []) (some (.vStr "k")) (some (.vNum 0))).result = .ok () ∧
    (defaultManager.get
        (defaultManager.set (dbS []) (some (.vStr "k")) (some (.vNum 0))).db "k").result
      = .ok .vNull ∧
    JSValue.vNull ≠ JSValue.vNum 0 := by
  decide

/-- Claim C1 (amended): for every key accepted by `set` (trimmed form
non-empty) and every storable value v that is truthy or `null`,
`set(k, v)` followed by `get(k)` on the same adapter returns v.  For
falsy v other than `null` (`0`, `false`, `''`), `get` returns `null`
instead. -/
theorem set_get_roundtrip (m : DatabaseManager) (d : IDBDatabase) (st : List Record)
    (k : String) (v : JSValue)
    (hs : d.findStore "s" = some st)
    (hk : jsTrim k ≠ "")
    (hv : v.truthy = true ∨ v = .vNull) :
    (m.set d (some (.vStr k)) (some v)).result = .ok () ∧
    (m.get (m.set d (some (.vStr k)) (some v)).db k).result = .ok v := by
  have hk' : (jsTrim k == "") = false := by simp [hk]
  have hset : m.set d (some (.vStr k)) (some v) =
      ⟨[.transaction "s" .readwrite, .reqPut ⟨k, v⟩, .commit], .ok (),
        d.setStore "s" (storePut st ⟨k, v⟩)⟩ := by
    simp [DatabaseManager.set, hk', hs]
  have hfs : (d.setStore "s" (storePut st ⟨k, v⟩)).findStore "s"
      = some (storePut st ⟨k, v⟩) := by
    obtain ⟨l⟩ := d
    exact findStore_setStore l "s" st _ hs
  refine ⟨by rw [hset], ?_⟩
  rw [hset]
  have hget : storeGet (storePut st ⟨k, v⟩) k = some ⟨k, v⟩ := storeGet_storePut st ⟨k, v⟩
  have htrans : getResultTransform (storeGet (storePut st ⟨k, v⟩) k) = v := by
    rw [hget]
    rcases hv with hv | hv
    · simp [getResultTransform, hv]
    · subst hv
      rfl
  simp [DatabaseManager.get, hfs, htrans]

/-- Witness for `set_get_roundtrip` at the concrete input
`set('x', true); get('x')` on the freshly created default store. -/
theorem set_get_roundtrip_witness :
    (defaultManager.set (dbS []) (some (.vStr "x")) (some (.vBool true))).result = .ok () ∧
    (defaultManager.get
        (defaultManager.set (dbS []) (some (.vStr "x")) (some (.vBool true))).db "x").result
      = .ok (.vBool true) :=
  set_get_roundtrip defaultManager (dbS []) [] "x" (.vBool true)
    (by decide) (by decide) (Or.inl (by decide))

/-! ### Claim C2 -/

/-- Claim C2, counterexample: on a store holding the single record
`{k: 'a', v: 1}`, `getAll()` resolves with the whole record object
(line 167 passes the engine's `getAll` result through untouched), not
with the sequence of `v` payloads `[1]` that the claim describes. -/
theorem getAll_whole_records_counterexample :
    (defaultManager.getAll (dbS [⟨"a", .vNum 1⟩])).result
      = .ok [JSValue.vRecObj "a" (.vNum 1)] ∧
    (Except.ok [JSValue.vRecObj "a" (.vNum 1)] : Except DBError (List JSValue))
      ≠ .ok [JSValue.vNum 1] ∧
    getAllSpecValues [⟨"a", .vNum 1⟩] = [.vNum 1] := by
  decide

/-- Claim C2 (amended): `getAll()` returns the sequence of whole stored
records (objects with `k` and `v` fields), not the `v` payloads alone,
in the same natural ascending-key order as `list()`: its i-th element
is the record whose key is the i-th key of `list()`, and extracting the
`v` field of each returned record yields exactly the payload sequence
the spec describes. -/
theorem getAll_records_match_list_order (m : DatabaseManager) (d : IDBDatabase)
    (st : List Record) (hs : d.findStore "s" = some st) :
    (m.getAll d).result = .ok (st.map Record.toJS) ∧
    (m.list d).result = .ok (st.map Record.k) ∧
    (st.map Record.toJS).map JSValue.recV = (getAllSpecValues st).map some := by
  refine ⟨?_, ?_, ?_⟩
  · simp [DatabaseManager.getAll, hs, orEmptyList]
  · simp [DatabaseManager.list, hs, orEmptyList]
  · simp [getAllSpecValues, Record.toJS, JSValue.recV, List.map_map]

/-- Witness for `getAll_records_match_list_order` on a two-record
store. -/
theorem getAll_records_match_list_order_witness :
    (defaultManager.getAll (dbS [⟨"a", .vNum 1⟩, ⟨"b", .vStr "t"⟩])).result
      = .ok (([⟨"a", .vNum 1⟩, ⟨"b", .vStr "t"⟩] : List Record).map Record.toJS) ∧
    (defaultManager.list (dbS [⟨"a", .vNum 1⟩, ⟨"b", .vStr "t"⟩])).result
      = .ok (([⟨"a", .vNum 1⟩, ⟨"b", .vStr "t"⟩] : List Record).map Record.k) ∧
    (([⟨"a", .vNum 1⟩, ⟨"b", .vStr "t"⟩] : List Record).map Record.toJS).map JSValue.recV
      = (getAllSpecValues [⟨"a", .vNum 1⟩, ⟨"b", .vStr "t"⟩]).map some :=
  getAll_records_match_list_order defaultManager
    (dbS [⟨"a", .vNum 1⟩, ⟨"b", .vStr "t"⟩]) [⟨"a", .vNum 1⟩, ⟨"b", .vStr "t"⟩]
    (by decide)

/-! ### Claim C3 -/

/-- Claim C3 (refuting the claim; the code is the defect): with the
adapter of the README's own usage example,
`new DatabaseManager('myDatabase', 1, 'myStore', 'id')`, whose database
contains exactly the store `'myStore'` that `init` created, every data
operation — get, set, delete, list, getAll, clear, setAll — opens its
transaction against the literal name `'s'` instead of the configured
`'myStore'`, and therefore fails with the engine's NotFoundError. -/
theorem hardcoded_store_ignores_config :
    readmeManager.storeName = "myStore" ∧
    readmeDb.findStore "myStore" = some [] ∧
    (readmeManager.get readmeDb "username").calls = [.transaction "s" .readonly] ∧
    (readmeManager.get readmeDb "username").result = .error (.storeNotFound "s") ∧
    (readmeManager.set readmeDb (some (.vStr "username")) (some (.vStr "johnDoe"))).calls
      = [.transaction "s" .readwrite] ∧
    (readmeManager.set readmeDb (some (.vStr "username")) (some (.vStr "johnDoe"))).result
      = .error (.storeNotFound "s") ∧
    (readmeManager.delete readmeDb "username").result = .error (.storeNotFound "s") ∧
    (readmeManager.list readmeDb).result = .error (.storeNotFound "s") ∧
    (readmeManager.getAll readmeDb).result = .error (.storeNotFound "s") ∧
    (readmeManager.clear readmeDb).result = .error (.storeNotFound "s") ∧
    (readmeManager.setAll readmeDb [("a", .vNum 1)]).result = .error (.storeNotFound "s") := by
  decide

/-! ### Claim C4 -/

/-- Claim C4, counterexample: in an environment with no browser global
at all, the guard `typeof window !== 'undefined' && !indexedDB` is
false, so `init` skips the `'IndexedDB not supported'` rejection and
instead calls `.open` on `undefined`, rejecting with a TypeError — a
different error than the claimed UnsupportedEnvironment. -/
theorem init_no_window_counterexample :
    initProbe noWindowEnv = .rejectedTypeError ∧
    InitProbe.rejectedTypeError ≠ InitProbe.rejectedNotSupported := by
  decide

/-- Claim C4 (amended): when a `window` global exists but exposes no
IndexedDB under any vendor name, `init()` rejects with the
`'IndexedDB not supported'` error; when no `window` global exists at
all, `init()` instead rejects with the TypeError thrown by calling
`open` on `undefined`. -/
theorem init_probe_no_engine (e : HostEnv)
    (h1 : e.indexedDB = false) (h2 : e.mozIndexedDB = false)
    (h3 : e.webkitIndexedDB = false) (h4 : e.msIndexedDB = false) :
    initProbe e = if e.hasWindow then .rejectedNotSupported else .rejectedTypeError := by
  obtain ⟨w, i1, i2, i3, i4⟩ := e
  simp only at h1 h2 h3 h4
  subst h1 h2 h3 h4
  cases w <;> rfl

/-- Witness for `init_probe_no_engine`: a browser window with no
IndexedDB under any vendor name is rejected as not supported. -/
theorem init_probe_no_engine_witness :
    initProbe ⟨true, false, false, false, false⟩ = .rejectedNotSupported := by
  have h := init_probe_no_engine ⟨true, false, false, false, false⟩ rfl rfl rfl rfl
  simpa using h

/-! ### Claim C5 -/

/-- Claim C5, counterexample: after `init()` resolves through the
first-creation/upgrade path on the default adapter, the connection `db`
is non-null and the `_waitForDB` gate is open (operations proceed to
issue engine requests), yet `ready` is still `false` — the upgrade
path's `oncomplete` handler (lines 42-45) sets `this.db` and resolves
without ever setting `this.ready`. -/
theorem upgrade_path_ready_counterexample :
    (defaultManager.afterUpgradeResolve).db.isSome = true ∧
    (defaultManager.afterUpgradeResolve).ready = false ∧
    (defaultManager.afterUpgradeResolve).dbGateOpen = true := by
  decide

/-- Claim C5 (amended): the operation gate checks the connection `db`,
not `ready`: an operation proceeds to issue engine requests exactly
when `db` is non-null.  The success path of `init` sets `ready = true`,
but the first-creation/upgrade path resolves with `db` set to the newly
created database while leaving `ready` unchanged (hence `false`), so
`ready` is not an invariant consequence of `db` being non-null. -/
theorem gate_checks_connection_not_ready (m : DatabaseManager) (d : IDBDatabase) :
    m.dbGateOpen = m.db.isSome ∧
    (m.afterUpgradeResolve).db = some m.upgradeCreatedDb ∧
    (m.afterUpgradeResolve).ready = m.ready ∧
    (m.onOpenSuccess d).ready = true ∧
    (m.afterUpgradeResolve).dbGateOpen = true :=
  ⟨rfl, rfl, rfl, rfl, rfl⟩

/-! ### Claim C6 -/

/-- Claim C6: `set` fails with the `'Invalid key'` error whenever the
key argument is not a non-empty string (wrong type, `undefined`, or the
empty string), and with the `'Value cannot be undefined'` error when
the key is acceptable but the value is `undefined`; in every such case
the failure happens before any engine call (`calls = []`) and the
database is unchanged. -/
theorem set_validation (m : DatabaseManager) (d : IDBDatabase)
    (key value : Option JSValue) :
    (jsTypeofString key = false →
      m.set d key value = ⟨[], .error .invalidKey, d⟩) ∧
    (∀ s, key = some (.vStr s) → s = "" →
      m.set d key value = ⟨[], .error .invalidKey, d⟩) ∧
    (∀ s, key = some (.vStr s) → jsTrim s ≠ "" → value = none →
      m.set d key value = ⟨[], .error .invalidValue, d⟩) := by
  refine ⟨?_, ?_, ?_⟩
  · intro h
    match key with
    | none => rfl
    | some .vNull => rfl
    | some (.vBool b) => rfl
    | some (.vNum n) => rfl
    | some (.vRecObj a b) => rfl
    | some (.vStr s) => simp [jsTypeofString] at h
  · intro s hks hs
    subst hks hs
    rfl
  · intro s hks hs hval
    subst hks hval
    have hs' : (jsTrim s == "") = false := by simp [hs]
    simp [DatabaseManager.set, hs']

/-- Witness for `set_validation`: `set('', null)` fails with the
invalid-key error and `set('k', undefined)` fails with the
invalid-value error, both with no engine call and the store
untouched. -/
theorem set_validation_witness :
    defaultManager.set (dbS []) (some (.vStr "")) (some .vNull)
      = ⟨[], .error .invalidKey, dbS []⟩ ∧
    defaultManager.set (dbS []) (some (.vStr "k")) none
      = ⟨[], .error .invalidValue, dbS []⟩ :=
  ⟨(set_validation defaultManager (dbS []) (some (.vStr "")) (some .vNull)).2.1 "" rfl rfl,
   (set_validation defaultManager (dbS []) (some (.vStr "k")) none).2.2 "k" rfl
     (by decide) rfl⟩

/-! ### Claim C7 -/

/-- Claim C7: `set` attaches its `resolve` to the transaction's
`oncomplete` and not to the individual `put` request, so its promise
resolves at the committed phase — where the write is durable/visible —
and not at the earlier put-acknowledged phase, where it is not; the
last engine call of a successful `set` is the explicit `commit`, and
the database `set` leaves behind contains the written record, so a
subsequent `get`'s engine fetch finds it. -/
theorem set_resolves_on_transaction_complete (m : DatabaseManager) (d : IDBDatabase)
    (st : List Record) (k : String) (v : JSValue)
    (hs : d.findStore "s" = some st) (hk : jsTrim k ≠ "") :
    resolutionPhase setHandlers = some .committed ∧
    writeVisible .putAcked = false ∧
    writeVisible .committed = true ∧
    (m.set d (some (.vStr k)) (some v)).calls.getLast? = some .commit ∧
    (∃ st', (m.set d (some (.vStr k)) (some v)).db.findStore "s" = some st' ∧
      storeGet st' k = some ⟨k, v⟩) := by
  have hk' : (jsTrim k == "") = false := by simp [hk]
  have hset : m.set d (some (.vStr k)) (some v) =
      ⟨[.transaction "s" .readwrite, .reqPut ⟨k, v⟩, .commit], .ok (),
        d.setStore "s" (storePut st ⟨k, v⟩)⟩ := by
    simp [DatabaseManager.set, hk', hs]
  refine ⟨rfl, rfl, rfl, by rw [hset]; rfl, ?_⟩
  refine ⟨storePut st ⟨k, v⟩, ?_, storeGet_storePut st ⟨k, v⟩⟩
  rw [hset]
  obtain ⟨l⟩ := d
  exact findStore_setStore l "s" st _ hs

/-- Witness for `set_resolves_on_transaction_complete` at
`set('x', 7)` on the freshly created default store. -/
theorem set_resolves_on_transaction_complete_witness :
    resolutionPhase setHandlers = some .committed ∧
    writeVisible .putAcked = false ∧
    writeVisible .committed = true ∧
    (defaultManager.set (dbS []) (some (.vStr "x")) (some (.vNum 7))).calls.getLast?
      = some .commit ∧
    (∃ st', (defaultManager.set (dbS []) (some (.vStr "x")) (some (.vNum 7))).db.findStore "s"
        = some st' ∧ storeGet st' "x" = some ⟨"x", .vNum 7⟩) :=
  set_resolves_on_transaction_complete defaultManager (dbS []) [] "x" (.vNum 7)
    (by decide) (by decide)

/-! ### Claim C8 -/

/-- Claim C8: `delete(k)` resolves without error for every key,
including keys with no record (the engine's delete request succeeds on
an absent key and the adapter resolves on `request.onsuccess`), and
deleting twice in sequence produces exactly the same outcome — same
engine calls, same successful result, same database — as deleting
once. -/
theorem delete_idempotent (m : DatabaseManager) (d : IDBDatabase)
    (st : List Record) (k : String) (hs : d.findStore "s" = some st) :
    (m.delete d k).result = .ok () ∧
    m.delete (m.delete d k).db k = m.delete d k := by
  have hdel : m.delete d k =
      ⟨[.transaction "s" .readwrite, .reqDelete k], .ok (),
        d.setStore "s" (storeDelete st k)⟩ := by
    simp [DatabaseManager.delete, hs]
  have hfs : (d.setStore "s" (storeDelete st k)).findStore "s"
      = some (storeDelete st k) := by
    obtain ⟨l⟩ := d
    exact findStore_setStore l "s" st _ hs
  refine ⟨by rw [hdel], ?_⟩
  rw [hdel]
  simp only [DatabaseManager.delete, hfs]
  rw [storeDelete_idem]
  obtain ⟨l⟩ := d
  rw [setStore_setStore]

/-- Witness for `delete_idempotent`: deleting the absent key `'u'`
from the fresh default store succeeds, and a second delete has the
identical outcome. -/
theorem delete_idempotent_witness :
    (defaultManager.delete (dbS []) "u").result = .ok () ∧
    defaultManager.delete (defaultManager.delete (dbS []) "u").db "u"
      = defaultManager.delete (dbS []) "u" :=
  delete_idempotent defaultManager (dbS []) [] "u" (by decide)

/-! ### Claim C9 -/

/-- Claim C9: `list()` always resolves with a sequence — the store's
keys, `[]` when the collection is empty, never null (line 150's
`event.target.result || []` substitutes `[]` for an absent engine
result) — and after a successful `clear()` both `list()` and `getAll()`
resolve with the empty sequence. -/
theorem clear_then_list_getAll_empty (m : DatabaseManager) (d : IDBDatabase)
    (st : List Record) (hs : d.findStore "s" = some st) :
    (m.list d).result = .ok (st.map Record.k) ∧
    (m.clear d).result = .ok () ∧
    (m.list (m.clear d).db).result = .ok ([] : List String) ∧
    (m.getAll (m.clear d).db).result = .ok ([] : List JSValue) := by
  have hclear : m.clear d =
      ⟨[.transaction "s" .readwrite, .reqClear], .ok (), d.setStore "s" []⟩ := by
    simp [DatabaseManager.clear, hs]
  have hfs : (d.setStore "s" []).findStore "s" = some [] := by
    obtain ⟨l⟩ := d
    exact findStore_setStore l "s" st [] hs
  refine ⟨?_, by rw [hclear], ?_, ?_⟩
  · simp [DatabaseManager.list, hs, orEmptyList]
  · rw [hclear]
    simp [DatabaseManager.list, hfs, orEmptyList]
  · rw [hclear]
    simp [DatabaseManager.getAll, hfs, orEmptyList]

/-- Witness for `clear_then_list_getAll_empty` on a store holding one
record: `list()` resolves with the one key, and after `clear()` both
`list()` and `getAll()` resolve with the empty sequence. -/
theorem clear_then_list_getAll_empty_witness :
    (defaultManager.list (dbS [⟨"a", .vNum 1⟩])).result
      = .ok (([⟨"a", .vNum 1⟩] : List Record).map Record.k) ∧
    (defaultManager.clear (dbS [⟨"a", .vNum 1⟩])).result = .ok () ∧
    (defaultManager.list (defaultManager.clear (dbS [⟨"a", .vNum 1⟩])).db).result
      = .ok ([] : List String) ∧
    (defaultManager.getAll (defaultManager.clear (dbS [⟨"a", .vNum 1⟩])).db).result
      = .ok ([] : List JSValue) :=
  clear_then_list_getAll_empty defaultManager (dbS [⟨"a", .vNum 1⟩]) [⟨"a", .vNum 1⟩]
    (by decide)

/-! ### Claim C10 -/

/-- Claim C10: a key whose trimmed form is empty — even a non-empty,
all-whitespace string such as `' '` — is rejected: `set` fails with the
`'Invalid key'` error before any engine call (line 102 tests
`key.trim() === ''`), leaving the database unchanged. -/
theorem set_whitespace_key_rejected (m : DatabaseManager) (d : IDBDatabase)
    (value : Option JSValue) (s : String) (h : jsTrim s = "") :
    m.set d (some (.vStr s)) value = ⟨[], .error .invalidKey, d⟩ := by
  have h' : (jsTrim s == "") = true := by simp [h]
  simp [DatabaseManager.set, h']

/-- Witness for `set_whitespace_key_rejected`: the key `' '` is a
non-empty string, yet `set(' ', null)` fails with the invalid-key
error, no engine call made. -/
theorem set_whitespace_key_rejected_witness :
    (" " : String) ≠ "" ∧
    defaultManager.set (dbS []) (some (.vStr " ")) (some .vNull)
      = ⟨[], .error .invalidKey, dbS []⟩ :=
  ⟨by decide, set_whitespace_key_rejected defaultManager (dbS []) (some .vNull) " "
    (by decide)⟩

end IndexedDBManager
